import Mathlib

/-!
Shallow embedding of the scoring and risk-derivation engine of the
Tally governance-health MCP server (TypeScript sources:
src/analyzers/health-scorer.ts, src/analyzers/risk-detector.ts,
src/analyzers/governance-analyzer.ts, src/types/governance.ts).

JavaScript numbers are modelled as rationals; JavaScript
Math.round (round half toward positive infinity) is modelled by jsRound.
-/

/-- JavaScript Math.round: round half toward positive infinity,
so jsRound x = floor (x + 1/2), returned as a rational (a JS number). -/
def jsRound (q : ℚ) : ℚ := ((⌊q + 1/2⌋ : ℤ) : ℚ)

/-- The DAOMetrics record from src/types/governance.ts.
Numeric fields are JS numbers, modelled as rationals. -/
structure DAOMetrics where
  name : String
  symbol : String
  totalProposals : ℚ
  activeProposals : ℚ
  avgVoterTurnout : ℚ
  tokenConcentration : ℚ
  delegateActivity : ℚ
  proposalSuccessRate : ℚ
  avgProposalDuration : ℚ
  treasuryHealth : ℚ
  communityEngagement : ℚ
deriving DecidableEq

/-- The five-key categoryScores object returned by
HealthScorer.calculateCategoryScores (field order is the JS object
insertion order, which Object.entries preserves). -/
structure CategoryScores where
  participation : ℚ
  decentralization : ℚ
  activity : ℚ
  transparency : ℚ
  stability : ℚ
deriving DecidableEq

/-- HealthScorer.calculateParticipationScore from health-scorer.ts. -/
def calculateParticipationScore (metrics : DAOMetrics) : ℚ :=
  let turnoutScore := min 100 (metrics.avgVoterTurnout * 2)
  let delegateScore := min 100 metrics.delegateActivity
  let engagementScore := min 100 metrics.communityEngagement
  jsRound ((turnoutScore * 0.4) + (delegateScore * 0.3) + (engagementScore * 0.3))

/-- HealthScorer.calculateDecentralizationScore from health-scorer.ts. -/
def calculateDecentralizationScore (metrics : DAOMetrics) : ℚ :=
  let concentrationScore := max 0 (100 - metrics.tokenConcentration)
  let delegateDistributionScore := min 100 metrics.delegateActivity
  jsRound ((concentrationScore * 0.7) + (delegateDistributionScore * 0.3))

/-- HealthScorer.calculateActivityScore from health-scorer.ts. -/
def calculateActivityScore (metrics : DAOMetrics) : ℚ :=
  let proposalActivityScore := min 100 ((metrics.totalProposals / 12) * 20)
  let activeProposalsScore := min 100 (metrics.activeProposals * 25)
  let successRateScore := metrics.proposalSuccessRate
  jsRound ((proposalActivityScore * 0.4) + (activeProposalsScore * 0.3) + (successRateScore * 0.3))

/-- HealthScorer.calculateTransparencyScore from health-scorer.ts. -/
def calculateTransparencyScore (metrics : DAOMetrics) : ℚ :=
  let proposalScore : ℚ := if metrics.totalProposals > 10 then 80 else 50
  let durationScore : ℚ := if metrics.avgProposalDuration > 3 then 70 else 40
  jsRound ((proposalScore * 0.6) + (durationScore * 0.4))

/-- HealthScorer.calculateStabilityScore from health-scorer.ts. -/
def calculateStabilityScore (metrics : DAOMetrics) : ℚ :=
  let successRateScore := metrics.proposalSuccessRate
  let treasuryScore := metrics.treasuryHealth
  let durationScore := min 100 (metrics.avgProposalDuration * 10)
  jsRound ((successRateScore * 0.4) + (treasuryScore * 0.3) + (durationScore * 0.3))

/-- HealthScorer.calculateCategoryScores from health-scorer.ts. -/
def calculateCategoryScores (metrics : DAOMetrics) : CategoryScores :=
  { participation := calculateParticipationScore metrics
    decentralization := calculateDecentralizationScore metrics
    activity := calculateActivityScore metrics
    transparency := calculateTransparencyScore metrics
    stability := calculateStabilityScore metrics }

/-- HealthScorer.calculateOverallScore from health-scorer.ts:
Object.entries(categoryScores).reduce over the five entries in insertion
order, each multiplied by its weight, rounded once at the end. -/
def calculateOverallScore (categoryScores : CategoryScores) : ℚ :=
  jsRound (List.foldl (fun total scoreWeight => total + scoreWeight.1 * scoreWeight.2) 0
    [(categoryScores.participation, (0.25 : ℚ)),
     (categoryScores.decentralization, 0.25),
     (categoryScores.activity, 0.20),
     (categoryScores.transparency, 0.15),
     (categoryScores.stability, 0.15)])

/-- The risk `type` field, a union of the three string literals in
src/types/governance.ts. -/
inductive RiskType where
  | HIGH
  | MEDIUM
  | LOW
deriving DecidableEq, Repr

/-- The Risk record from src/types/governance.ts. -/
structure Risk where
  type : RiskType
  category : String
  description : String
  impact : String
  mitigation : String
deriving DecidableEq

/-- RiskDetector.identifyRisks from risk-detector.ts: five independent
threshold rules, each pushing at most one risk onto the result list.
The categoryScores parameter is accepted but unused, as in the source. -/
def identifyRisks (metrics : DAOMetrics) : List Risk :=
  let risks : List Risk := []
  let risks := if metrics.avgVoterTurnout < 10 then
    risks ++ [{ type := RiskType.HIGH
                category := "Participation"
                description := "Extremely low voter turnout indicates governance apathy"
                impact := "Decisions may not represent community consensus"
                mitigation := "Implement voter incentives and education programs" }]
    else risks
  let risks := if metrics.tokenConcentration > 70 then
    risks ++ [{ type := RiskType.HIGH
                category := "Centralization"
                description := "High token concentration among few holders"
                impact := "Risk of governance capture and manipulation"
                mitigation := "Encourage token distribution and delegate diversity" }]
    else risks
  let risks := if metrics.totalProposals < 5 then
    risks ++ [{ type := RiskType.MEDIUM
                category := "Activity"
                description := "Low governance activity may indicate disengagement"
                impact := "Important decisions may be delayed or ignored"
                mitigation := "Stimulate governance participation with clear processes" }]
    else risks
  let risks := if metrics.proposalSuccessRate < 30 then
    risks ++ [{ type := RiskType.HIGH
                category := "Stability"
                description := "Very low proposal success rate indicates governance dysfunction"
                impact := "Inability to make necessary protocol changes"
                mitigation := "Review proposal processes and consensus mechanisms" }]
    else risks
  let risks := if metrics.delegateActivity < 20 then
    risks ++ [{ type := RiskType.MEDIUM
                category := "Delegation"
                description := "Low delegate activity may create governance bottlenecks"
                impact := "Reduced governance efficiency and representation"
                mitigation := "Implement delegate accountability and incentive systems" }]
    else risks
  risks

/-- GovernanceAnalyzer.generateRecommendations from governance-analyzer.ts:
five independent threshold rules over the metrics and the detected risks. -/
def generateRecommendations (metrics : DAOMetrics) (risks : List Risk) : List String :=
  let recommendations : List String := []
  let recommendations := if metrics.avgVoterTurnout < 20 then
    recommendations ++ ["Consider implementing voter incentive programs to increase participation"]
    else recommendations
  let recommendations := if metrics.tokenConcentration > 50 then
    recommendations ++ ["Token distribution is concentrated - diversification would improve governance health"]
    else recommendations
  let recommendations := if metrics.delegateActivity < 30 then
    recommendations ++ ["Delegate engagement is low - consider delegate recognition programs"]
    else recommendations
  let recommendations := if (risks.filter (fun r => r.type == RiskType.HIGH)).length > 0 then
    recommendations ++ ["Address high-priority risks immediately to improve governance stability"]
    else recommendations
  let recommendations := if metrics.proposalSuccessRate < 40 then
    recommendations ++ ["Low proposal success rate indicates potential consensus issues"]
    else recommendations
  recommendations

/-- GovernanceAnalyzer.getRiskLevel from governance-analyzer.ts. -/
def getRiskLevel (risks : List Risk) : String :=
  let highRisks := (risks.filter (fun r => r.type == RiskType.HIGH)).length
  if highRisks > 2 then "CRITICAL"
  else if highRisks > 0 then "HIGH"
  else if risks.length > 3 then "MEDIUM"
  else "LOW"

/-- The clamp function as the spec words it: clamp(x) = min(100, max(0, x)). -/
def specClamp (x : ℚ) : ℚ := min 100 (max 0 x)

/-- The participation formula exactly as the spec words it, with the
two-sided specClamp on every partial score; to be compared against the
source implementation calculateParticipationScore. -/
def specParticipationScore (metrics : DAOMetrics) : ℚ :=
  jsRound (0.4 * specClamp (metrics.avgVoterTurnout * 2) +
    0.3 * specClamp metrics.delegateActivity +
    0.3 * specClamp metrics.communityEngagement)

/-- A rational is an integer lying in the inclusive interval [0, 100]. -/
def IsIntInRange (q : ℚ) : Prop := (∃ n : ℤ, q = (n : ℚ)) ∧ 0 ≤ q ∧ q ≤ 100

/-- Scenario B metrics from the spec's testable properties. -/
def scenarioB : DAOMetrics :=
  { name := "", symbol := "", totalProposals := 2, activeProposals := 0,
    avgVoterTurnout := 5, tokenConcentration := 85, delegateActivity := 10,
    proposalSuccessRate := 15, avgProposalDuration := 1, treasuryHealth := 20,
    communityEngagement := 5 }

/-- Scenario A metrics from the spec's testable properties. -/
def scenarioA : DAOMetrics :=
  { name := "", symbol := "", totalProposals := 25, activeProposals := 3,
    avgVoterTurnout := 40, tokenConcentration := 30, delegateActivity := 60,
    proposalSuccessRate := 75, avgProposalDuration := 5, treasuryHealth := 80,
    communityEngagement := 50 }

/-- Adversarial metrics record: a large negative voter turnout, all other
numeric fields zero. -/
def advTurnoutMetrics : DAOMetrics :=
  { name := "", symbol := "", totalProposals := 0, activeProposals := 0,
    avgVoterTurnout := -1000, tokenConcentration := 0, delegateActivity := 0,
    proposalSuccessRate := 0, avgProposalDuration := 0, treasuryHealth := 0,
    communityEngagement := 0 }

/-- Metrics record with a mildly negative voter turnout, all other numeric
fields zero. -/
def negTurnoutMetrics : DAOMetrics :=
  { name := "", symbol := "", totalProposals := 0, activeProposals := 0,
    avgVoterTurnout := -5, tokenConcentration := 0, delegateActivity := 0,
    proposalSuccessRate := 0, avgProposalDuration := 0, treasuryHealth := 0,
    communityEngagement := 0 }

/-- The five fixed risk records of risk-detector.ts, rule 1: low turnout. -/
def lowTurnoutRisk : Risk :=
  { type := RiskType.HIGH
    category := "Participation"
    description := "Extremely low voter turnout indicates governance apathy"
    impact := "Decisions may not represent community consensus"
    mitigation := "Implement voter incentives and education programs" }

/-- Rule 2 of risk-detector.ts: token concentration. -/
def concentrationRisk : Risk :=
  { type := RiskType.HIGH
    category := "Centralization"
    description := "High token concentration among few holders"
    impact := "Risk of governance capture and manipulation"
    mitigation := "Encourage token distribution and delegate diversity" }

/-- Rule 3 of risk-detector.ts: low proposal count. -/
def lowActivityRisk : Risk :=
  { type := RiskType.MEDIUM
    category := "Activity"
    description := "Low governance activity may indicate disengagement"
    impact := "Important decisions may be delayed or ignored"
    mitigation := "Stimulate governance participation with clear processes" }

/-- Rule 4 of risk-detector.ts: low success rate. -/
def lowSuccessRisk : Risk :=
  { type := RiskType.HIGH
    category := "Stability"
    description := "Very low proposal success rate indicates governance dysfunction"
    impact := "Inability to make necessary protocol changes"
    mitigation := "Review proposal processes and consensus mechanisms" }

/-- Rule 5 of risk-detector.ts: low delegate activity. -/
def delegationRisk : Risk :=
  { type := RiskType.MEDIUM
    category := "Delegation"
    description := "Low delegate activity may create governance bottlenecks"
    impact := "Reduced governance efficiency and representation"
    mitigation := "Implement delegate accountability and incentive systems" }

lemma jsRound_isInt (q : ℚ) : ∃ n : ℤ, jsRound q = (n : ℚ) := ⟨⌊q + 1/2⌋, rfl⟩

lemma jsRound_bounds {q : ℚ} (h0 : 0 ≤ q) (h1 : q ≤ 100) :
    0 ≤ jsRound q ∧ jsRound q ≤ 100 := by
  unfold jsRound
  constructor
  · exact_mod_cast Int.le_floor.mpr (by push_cast; linarith)
  · have h2 : ⌊q + 1/2⌋ < 101 := Int.floor_lt.mpr (by push_cast; linarith)
    exact_mod_cast Int.lt_add_one_iff.mp h2

lemma jsRound_mono {q r : ℚ} (h : q ≤ r) : jsRound q ≤ jsRound r := by
  unfold jsRound
  exact_mod_cast Int.floor_le_floor (by linarith)

lemma participation_in_range (m : DAOMetrics) (ht : 0 ≤ m.avgVoterTurnout)
    (hd : 0 ≤ m.delegateActivity) (he : 0 ≤ m.communityEngagement) :
    IsIntInRange (calculateParticipationScore m) := by
  have hA : 0 ≤ min 100 (m.avgVoterTurnout * 2) := le_min (by norm_num) (by linarith)
  have hA' : min 100 (m.avgVoterTurnout * 2) ≤ 100 := min_le_left _ _
  have hB : 0 ≤ min 100 m.delegateActivity := le_min (by norm_num) hd
  have hB' : min 100 m.delegateActivity ≤ 100 := min_le_left _ _
  have hC : 0 ≤ min 100 m.communityEngagement := le_min (by norm_num) he
  have hC' : min 100 m.communityEngagement ≤ 100 := min_le_left _ _
  exact ⟨jsRound_isInt _, jsRound_bounds (by norm_num; linarith) (by norm_num; linarith)⟩

lemma decentralization_in_range (m : DAOMetrics) (hc : 0 ≤ m.tokenConcentration)
    (hd : 0 ≤ m.delegateActivity) :
    IsIntInRange (calculateDecentralizationScore m) := by
  have hA : 0 ≤ max 0 (100 - m.tokenConcentration) := le_max_left _ _
  have hA' : max 0 (100 - m.tokenConcentration) ≤ 100 := max_le (by norm_num) (by linarith)
  have hB : 0 ≤ min 100 m.delegateActivity := le_min (by norm_num) hd
  have hB' : min 100 m.delegateActivity ≤ 100 := min_le_left _ _
  exact ⟨jsRound_isInt _, jsRound_bounds (by norm_num; linarith) (by norm_num; linarith)⟩

lemma activity_in_range (m : DAOMetrics) (hp : 0 ≤ m.totalProposals)
    (ha : 0 ≤ m.activeProposals) (hs : 0 ≤ m.proposalSuccessRate)
    (hs' : m.proposalSuccessRate ≤ 100) :
    IsIntInRange (calculateActivityScore m) := by
  have hA : 0 ≤ min 100 ((m.totalProposals / 12) * 20) := le_min (by norm_num) (by linarith)
  have hA' : min 100 ((m.totalProposals / 12) * 20) ≤ 100 := min_le_left _ _
  have hB : 0 ≤ min 100 (m.activeProposals * 25) := le_min (by norm_num) (by linarith)
  have hB' : min 100 (m.activeProposals * 25) ≤ 100 := min_le_left _ _
  exact ⟨jsRound_isInt _, jsRound_bounds (by norm_num; linarith) (by norm_num; linarith)⟩

lemma transparency_in_range (m : DAOMetrics) :
    IsIntInRange (calculateTransparencyScore m) := by
  unfold calculateTransparencyScore
  split_ifs <;> exact ⟨jsRound_isInt _, jsRound_bounds (by norm_num) (by norm_num)⟩

lemma stability_in_range (m : DAOMetrics) (hs : 0 ≤ m.proposalSuccessRate)
    (hs' : m.proposalSuccessRate ≤ 100) (hh : 0 ≤ m.treasuryHealth)
    (hh' : m.treasuryHealth ≤ 100) (hd : 0 ≤ m.avgProposalDuration) :
    IsIntInRange (calculateStabilityScore m) := by
  have hA : 0 ≤ min 100 (m.avgProposalDuration * 10) := le_min (by norm_num) (by linarith)
  have hA' : min 100 (m.avgProposalDuration * 10) ≤ 100 := min_le_left _ _
  exact ⟨jsRound_isInt _, jsRound_bounds (by norm_num; linarith) (by norm_num; linarith)⟩

lemma categoryScores_scenarioB :
    calculateCategoryScores scenarioB = ⟨9, 14, 6, 46, 15⟩ := by
  norm_num [scenarioB, calculateCategoryScores, calculateParticipationScore,
    calculateDecentralizationScore, calculateActivityScore,
    calculateTransparencyScore, calculateStabilityScore, jsRound]

/-- C1: the claim that every category score lies in [0, 100] for every
input, including adversarial negative values, is false: a large negative
avgVoterTurnout drives the participation score far below zero, because
the source clamps partial scores only from above with min(100, x). -/
theorem participation_leaks_below_zero :
    (calculateCategoryScores advTurnoutMetrics).participation = -800 ∧
    (calculateCategoryScores advTurnoutMetrics).participation < 0 := by
  norm_num [calculateCategoryScores, calculateParticipationScore,
    advTurnoutMetrics, jsRound]

/-- C1 (amended): for metrics whose numeric fields are all nonnegative and
whose proposalSuccessRate and treasuryHealth are at most 100, each of the
five category scores returned by calculateCategoryScores is an integer in
[0, 100]. -/
theorem categoryScores_in_range (m : DAOMetrics)
    (h1 : 0 ≤ m.totalProposals) (h2 : 0 ≤ m.activeProposals)
    (h3 : 0 ≤ m.avgVoterTurnout) (h4 : 0 ≤ m.tokenConcentration)
    (h5 : 0 ≤ m.delegateActivity) (h6 : 0 ≤ m.proposalSuccessRate)
    (h7 : m.proposalSuccessRate ≤ 100) (h8 : 0 ≤ m.avgProposalDuration)
    (h9 : 0 ≤ m.treasuryHealth) (h10 : m.treasuryHealth ≤ 100)
    (h11 : 0 ≤ m.communityEngagement) :
    IsIntInRange (calculateCategoryScores m).participation ∧
    IsIntInRange (calculateCategoryScores m).decentralization ∧
    IsIntInRange (calculateCategoryScores m).activity ∧
    IsIntInRange (calculateCategoryScores m).transparency ∧
    IsIntInRange (calculateCategoryScores m).stability :=
  ⟨participation_in_range m h3 h5 h11, decentralization_in_range m h4 h5,
   activity_in_range m h1 h2 h6 h7, transparency_in_range m,
   stability_in_range m h6 h7 h9 h10 h8⟩

/-- Witness for the amended C1 theorem at the spec's Scenario A metrics. -/
theorem categoryScores_in_range_witness :
    IsIntInRange (calculateCategoryScores scenarioA).participation ∧
    IsIntInRange (calculateCategoryScores scenarioA).decentralization ∧
    IsIntInRange (calculateCategoryScores scenarioA).activity ∧
    IsIntInRange (calculateCategoryScores scenarioA).transparency ∧
    IsIntInRange (calculateCategoryScores scenarioA).stability :=
  categoryScores_in_range scenarioA (by norm_num [scenarioA]) (by norm_num [scenarioA])
    (by norm_num [scenarioA]) (by norm_num [scenarioA]) (by norm_num [scenarioA])
    (by norm_num [scenarioA]) (by norm_num [scenarioA]) (by norm_num [scenarioA])
    (by norm_num [scenarioA]) (by norm_num [scenarioA]) (by norm_num [scenarioA])

/-- C2: calculateOverallScore equals the weighted sum of the five category
scores with weights 0.25, 0.25, 0.20, 0.15, 0.15, rounded exactly once,
after the summation. -/
theorem overallScore_weighted_sum (cs : CategoryScores) :
    calculateOverallScore cs =
      jsRound (0.25 * cs.participation + 0.25 * cs.decentralization +
        0.20 * cs.activity + 0.15 * cs.transparency + 0.15 * cs.stability) := by
  unfold calculateOverallScore
  simp only [List.foldl]
  congr 1
  ring

/-- C3: identifyRisks returns exactly the risks whose strict threshold
conditions hold, in rule-declaration order: HIGH Participation iff
avgVoterTurnout < 10, HIGH Centralization iff tokenConcentration > 70,
MEDIUM Activity iff totalProposals < 5, HIGH Stability iff
proposalSuccessRate < 30, MEDIUM Delegation iff delegateActivity < 20,
and nothing else. -/
theorem identifyRisks_rules (m : DAOMetrics) :
    identifyRisks m =
      (if m.avgVoterTurnout < 10 then [lowTurnoutRisk] else []) ++
      (if m.tokenConcentration > 70 then [concentrationRisk] else []) ++
      (if m.totalProposals < 5 then [lowActivityRisk] else []) ++
      (if m.proposalSuccessRate < 30 then [lowSuccessRisk] else []) ++
      (if m.delegateActivity < 20 then [delegationRisk] else []) := by
  unfold identifyRisks
  split_ifs <;> rfl

/-- C4: the claim that the participation score applies the two-sided clamp
min(100, max(0, x)) to each partial score is false: the source applies only
the upper clamp min(100, x), so a negative turnout yields -4 where the
spec formula yields 0. -/
theorem participation_clamp_cex :
    calculateParticipationScore negTurnoutMetrics = -4 ∧
    specParticipationScore negTurnoutMetrics = 0 ∧
    calculateParticipationScore negTurnoutMetrics ≠
      specParticipationScore negTurnoutMetrics := by
  norm_num [calculateParticipationScore, specParticipationScore, specClamp,
    negTurnoutMetrics, jsRound]

/-- C4 (amended): the participation score equals
round(0.4 * min(100, turnout*2) + 0.3 * min(100, delegateActivity)
 + 0.3 * min(100, communityEngagement)): the clamp is one-sided, capping
above at 100 with no floor at 0. -/
theorem participation_formula (m : DAOMetrics) :
    calculateParticipationScore m =
      jsRound (0.4 * min 100 (m.avgVoterTurnout * 2) +
        0.3 * min 100 m.delegateActivity +
        0.3 * min 100 m.communityEngagement) := by
  unfold calculateParticipationScore
  ring_nf

/-- C5: generateRecommendations returns exactly the recommendations whose
conditions hold, in the fixed rule order, and the empty list when none
hold. -/
theorem generateRecommendations_rules (m : DAOMetrics) (risks : List Risk) :
    generateRecommendations m risks =
      (if m.avgVoterTurnout < 20 then
        ["Consider implementing voter incentive programs to increase participation"]
       else []) ++
      (if m.tokenConcentration > 50 then
        ["Token distribution is concentrated - diversification would improve governance health"]
       else []) ++
      (if m.delegateActivity < 30 then
        ["Delegate engagement is low - consider delegate recognition programs"]
       else []) ++
      (if (risks.filter (fun r => r.type == RiskType.HIGH)).length > 0 then
        ["Address high-priority risks immediately to improve governance stability"]
       else []) ++
      (if m.proposalSuccessRate < 40 then
        ["Low proposal success rate indicates potential consensus issues"]
       else []) := by
  unfold generateRecommendations
  split_ifs <;> rfl

/-- C6: on the spec's Scenario B metrics, identifyRisks returns exactly 5
risks of which exactly 3 are HIGH, the derived risk level is CRITICAL, and
the overall score is strictly below 40. -/
theorem scenarioB_analysis :
    (identifyRisks scenarioB).length = 5 ∧
    ((identifyRisks scenarioB).filter (fun r => r.type == RiskType.HIGH)).length = 3 ∧
    getRiskLevel (identifyRisks scenarioB) = "CRITICAL" ∧
    calculateOverallScore (calculateCategoryScores scenarioB) < 40 := by
  refine ⟨by decide, by decide, by decide, ?_⟩
  rw [categoryScores_scenarioB]
  norm_num [calculateOverallScore, jsRound, List.foldl]

/-- C7: the participation score is monotone in avgVoterTurnout: for two
metric records identical except that the second has a larger turnout, the
second participation score is at least the first. -/
theorem participation_mono (m1 m2 : DAOMetrics)
    (e1 : m1.name = m2.name) (e2 : m1.symbol = m2.symbol)
    (e3 : m1.totalProposals = m2.totalProposals)
    (e4 : m1.activeProposals = m2.activeProposals)
    (e5 : m1.tokenConcentration = m2.tokenConcentration)
    (e6 : m1.delegateActivity = m2.delegateActivity)
    (e7 : m1.proposalSuccessRate = m2.proposalSuccessRate)
    (e8 : m1.avgProposalDuration = m2.avgProposalDuration)
    (e9 : m1.treasuryHealth = m2.treasuryHealth)
    (e10 : m1.communityEngagement = m2.communityEngagement)
    (ht : m1.avgVoterTurnout < m2.avgVoterTurnout) :
    calculateParticipationScore m1 ≤ calculateParticipationScore m2 := by
  unfold calculateParticipationScore
  rw [e6, e10]
  apply jsRound_mono
  have hmin : min 100 (m1.avgVoterTurnout * 2) ≤ min 100 (m2.avgVoterTurnout * 2) :=
    min_le_min le_rfl (by linarith)
  linarith

/-- Witness for C7 at Scenario B and Scenario B with turnout raised to 8. -/
theorem participation_mono_witness :
    calculateParticipationScore scenarioB ≤
      calculateParticipationScore { scenarioB with avgVoterTurnout := 8 } :=
  participation_mono scenarioB { scenarioB with avgVoterTurnout := 8 }
    rfl rfl rfl rfl rfl rfl rfl rfl rfl rfl (by norm_num [scenarioB])

/-- C8: the scorer, aggregator, risk detector and recommendation generator
are pure functions of their arguments: two invocations on identical inputs
return identical outputs. -/
theorem pipeline_deterministic (m : DAOMetrics) (cs : CategoryScores)
    (risks : List Risk) :
    calculateCategoryScores m = calculateCategoryScores m ∧
    calculateOverallScore cs = calculateOverallScore cs ∧
    identifyRisks m = identifyRisks m ∧
    generateRecommendations m risks = generateRecommendations m risks :=
  ⟨rfl, rfl, rfl, rfl⟩

/-- C9: getRiskLevel applied to the risk list produced by identifyRisks
never returns MEDIUM: any list of more than 3 detected risks contains a
HIGH risk (only two rules emit MEDIUM), so the classifier answers
CRITICAL, HIGH or LOW. -/
theorem riskLevel_never_medium (m : DAOMetrics) :
    getRiskLevel (identifyRisks m) ≠ "MEDIUM" ∧
    (getRiskLevel (identifyRisks m) = "CRITICAL" ∨
      getRiskLevel (identifyRisks m) = "HIGH" ∨
      getRiskLevel (identifyRisks m) = "LOW") := by
  by_cases h1 : m.avgVoterTurnout < 10 <;>
    by_cases h2 : m.tokenConcentration > 70 <;>
      by_cases h3 : m.totalProposals < 5 <;>
        by_cases h4 : m.proposalSuccessRate < 30 <;>
          by_cases h5 : m.delegateActivity < 20 <;>
            simp only [identifyRisks, h1, h2, h3, h4, h5, if_true, if_false,
              ite_true, ite_false] <;>
              decide

/-- C10: the transparency score is determined by the two predicates
totalProposals > 10 and avgProposalDuration > 3 and takes exactly the four
values 46, 58, 64, 76; it always lies in [46, 76] and is never 0 or 100. -/
theorem transparency_four_values (m : DAOMetrics) :
    calculateTransparencyScore m =
      (if m.totalProposals > 10 then
        (if m.avgProposalDuration > 3 then (76 : ℚ) else 64)
       else
        (if m.avgProposalDuration > 3 then 58 else 46)) ∧
    46 ≤ calculateTransparencyScore m ∧ calculateTransparencyScore m ≤ 76 ∧
    (calculateTransparencyScore m = 46 ∨ calculateTransparencyScore m = 58 ∨
      calculateTransparencyScore m = 64 ∨ calculateTransparencyScore m = 76) := by
  unfold calculateTransparencyScore
  split_ifs <;> norm_num [jsRound]
